import Mathlib

/-!
Shallow embedding of the business-hours SLA evaluation engine of the
jira-bugs-metrics repository, together with proofs checking the
natural-language specification against it.

Source files embedded:
* `src/businessHours.js` (the variant with per-person windows) —
  `calculateBusinessMinutes`, `isBusinessHours`, `getNextBusinessHour`,
  `getPersonBusinessHours`, `isWeekend`.
* `src/opsgenieClient.js` — `findShiftAtTime`.
* `src/kpi.js` — `calculateSLAKPIs` and its helpers
  (`categorizeResponseTimes`, the per-manager tallies).

Conventions of the embedding:
* Instants are milliseconds since the Unix epoch, as `Nat` (all timestamps
  handled by the program are later than 1970).  Day 0 (1970-01-01) is a
  Thursday, so JavaScript's `getUTCDay` is `(t / msPerDay + 4) % 7`.
* Fractional minute quantities computed by the JavaScript code with plain
  floating-point division are modelled exactly in `ℚ`.
* Loops are modelled by structural recursion on an explicit fuel argument
  that is chosen at the call site to exceed the number of iterations the
  JavaScript loop performs (each iteration strictly advances the time
  pointer by at least one millisecond, so `end - start + 1` bounds the
  iteration count); fuel exhaustion (unreachable) yields the loop's
  neutral result.
* Display-only string formatting (`formatMinutes`,
  `calculateAvgResponseTime`'s "Xh Ym" rendering, `createdContext`) is
  not modelled; numeric values are kept in `ℚ` instead.
-/

/-! ### Time primitives (JavaScript `Date` UTC accessors) -/

def msPerMinute : Nat := 60000

def msPerHour : Nat := 3600000

def msPerDay : Nat := 86400000

/-- Calendar day index of an instant (days since the epoch). -/
def dayIndex (t : Nat) : Nat := t / msPerDay

/-- JavaScript `getUTCHours`. -/
def hourOf (t : Nat) : Nat := t % msPerDay / msPerHour

/-- JavaScript `getUTCDay` (0 = Sunday); the epoch day was a Thursday. -/
def weekday (t : Nat) : Nat := (dayIndex t + 4) % 7

/-- `isWeekend` from `businessHours.js`: Saturday or Sunday. -/
def isWeekend (t : Nat) : Bool := weekday t == 0 || weekday t == 6

/-- `d.setUTCHours(h, 0, 0, 0)`: same calendar day, at hour `h` sharp. -/
def sameDayAt (h t : Nat) : Nat := dayIndex t * msPerDay + h * msPerHour

/-- `d.setUTCDate(d.getUTCDate() + 1); d.setUTCHours(h, 0, 0, 0)`:
next calendar day, at hour `h` sharp. -/
def nextDayAt (h t : Nat) : Nat := (dayIndex t + 1) * msPerDay + h * msPerHour

/-! ### `businessHours.js`: working-hours windows -/

/-- `DEFAULT_BUSINESS_HOURS` (8 AM–5 PM EST expressed in UTC). -/
def DEFAULT_BUSINESS_HOURS : Nat × Nat := (13, 22)

/-- `MANAGER_TIMEZONES`: every manager works synchronized US East Coast
hours (UTC offset −5). -/
def MANAGER_TIMEZONES : List (String × Int) :=
  [("Brad Goldberg", -5), ("Jeff Maciorowski", -5), ("Akshay Vijay Takkar", -5),
   ("Grigoriy Semenenko", -5), ("Randy Dahl", -5), ("Evgeniy Suhov", -5),
   ("Max Kuklin", -5)]

/-- `getPersonBusinessHours(personName)`: UTC hour range of a person's
8 AM–5 PM local window, default window when the person is unknown. -/
def getPersonBusinessHours (personName : String) : Nat × Nat :=
  match MANAGER_TIMEZONES.lookup personName with
  | none => (DEFAULT_BUSINESS_HOURS.1, DEFAULT_BUSINESS_HOURS.2)
  | some off =>
      ((((8 - off) % 24 + 24) % 24).toNat, (((17 - off) % 24 + 24) % 24).toNat)

/-- The window used at each call site:
`personName ? getPersonBusinessHours(personName) : DEFAULT_BUSINESS_HOURS`. -/
def businessHoursFor (personName : Option String) : Nat × Nat :=
  match personName with
  | some name => getPersonBusinessHours name
  | none => DEFAULT_BUSINESS_HOURS

/-- `isBusinessHours(date, personName)`; the window may wrap past
midnight. -/
def isBusinessHours (date : Nat) (personName : Option String) : Bool :=
  let hour := hourOf date
  let hours := businessHoursFor personName
  if hours.1 < hours.2 then
    decide (hours.1 ≤ hour) && decide (hour < hours.2)
  else
    decide (hours.1 ≤ hour) || decide (hour < hours.2)

/-- `getNextBusinessHour(date, personName)`, fuelled.  The JavaScript
function's `while` loop skips at most two consecutive weekend days and
its tail recursion fires at most twice, so fuel 7 covers every run. -/
def getNextBusinessHourAux (personName : Option String) : Nat → Nat → Nat
  | 0, t => t
  | fuel + 1, t =>
      let hours := businessHoursFor personName
      if isWeekend t then
        getNextBusinessHourAux personName fuel (nextDayAt hours.1 t)
      else if hours.2 ≤ hourOf t then
        getNextBusinessHourAux personName fuel (nextDayAt hours.1 t)
      else if hourOf t < hours.1 then
        sameDayAt hours.1 t
      else t

def getNextBusinessHour (date : Nat) (personName : Option String) : Nat :=
  getNextBusinessHourAux personName 7 date

/-- One day-walking loop of `calculateBusinessMinutes`, accumulating
elapsed business milliseconds (the JavaScript code accumulates the same
quantity divided by 60000).  `hs, he` are the resolved window hours,
`c` the moving `current` pointer, `e` the end instant. -/
def bmLoop (hs he : Nat) : Nat → Nat → Nat → Int
  | 0, _, _ => 0
  | fuel + 1, c, e =>
      if c < e then
        if isWeekend c then
          bmLoop hs he fuel (nextDayAt hs c) e
        else if hourOf c < hs then
          bmLoop hs he fuel (sameDayAt hs c) e
        else if he ≤ hourOf c then
          bmLoop hs he fuel (nextDayAt hs c) e
        else
          let dayEnd := sameDayAt he c
          let segEnd := if e < dayEnd then e else dayEnd
          ((segEnd : Int) - (c : Int)) +
            bmLoop hs he fuel
              (if he ≤ hourOf segEnd then nextDayAt hs segEnd else segEnd) e
      else 0

/-- `Math.round(ms / 60000)` for a millisecond total, i.e.
`⌊ms/60000 + 1/2⌋`. -/
def jsRoundMinutes (ms : Int) : Int := (ms + 30000) / 60000

/-- `calculateBusinessMinutes(start, end, personName)` from
`businessHours.js`: minutes of business hours elapsed between two
instants, rounded to the nearest whole minute. -/
def calculateBusinessMinutes (start end_ : Nat) (personName : Option String) : Int :=
  let hours := businessHoursFor personName
  let current :=
    if isWeekend start || !isBusinessHours start personName then
      getNextBusinessHour start personName
    else start
  if end_ < current then 0
  else jsRoundMinutes (bmLoop hours.1 hours.2 (end_ - current + 1) current end_)

/-- `isOutsideBusinessHours(dateString, personName)`. -/
def isOutsideBusinessHours (date : Nat) (personName : Option String) : Bool :=
  isWeekend date || !isBusinessHours date personName

example : calculateBusinessMinutes (4 * msPerDay + 21 * msPerHour + 30 * msPerMinute)
    (5 * msPerDay + 14 * msPerHour) none = 90 := by decide

example : calculateBusinessMinutes (4 * msPerDay + 10 * msPerHour)
    (4 * msPerDay + 23 * msPerHour) none = 540 := by decide

/-! ### `opsgenieClient.js`: shift lookup from a cached timeline -/

structure Shift where
  person : String
  shiftStart : Nat
  shiftEnd : Nat
deriving DecidableEq, Repr

/-- Result of `findShiftAtTime`: the matched shift record, or one of the
sentinel records `{person: '[…]', shiftStart: null, shiftEnd: null}`. -/
inductive ShiftLookup where
  | found (s : Shift)
  | beforeOct31
  | weekend
  | afterHours
  | noCoverage
deriving DecidableEq, Repr

/-- `new Date('2025-10-31T00:00:00Z')` in epoch milliseconds. -/
def scheduleStartDate : Nat := 1761868800000

/-- `findShiftAtTime(shifts, timestamp)`: first shift whose
`[start, end]` (inclusive) contains the instant, else a gap sentinel. -/
def findShiftAtTime (shifts : List Shift) (t : Nat) : ShiftLookup :=
  if t < scheduleStartDate then .beforeOct31
  else
    match shifts.find? (fun s => decide (s.shiftStart ≤ t) && decide (t ≤ s.shiftEnd)) with
    | some s => .found s
    | none =>
        if weekday t = 0 ∨ weekday t = 6 then .weekend
        else if 23 ≤ hourOf t ∨ hourOf t < 7 then .afterHours
        else .noCoverage

/-! ### `kpi.js`: data model of the SLA evaluator

`firstOnCallActionTime` is only read when
`timeToFirstOnCallActionMinutes` is non-null and
`firstAssigneeCommentTime` only when
`timeToFirstAssigneeCommentMinutes` is non-null (`metrics.js` sets each
pair together), so those two carrier fields are plain instants here.
Display-only fields (`createdContext`, `createdBeforeShift`,
`respondedDuringShift`, `hasComment`) are not modelled. -/

structure SLAEntry where
  goalDuration : ℚ
deriving DecidableEq, Repr

structure Ticket where
  key : String
  created : Nat
  sla : List SLAEntry
  whoWasOnCall : Option String
  timeToFirstOnCallActionMinutes : Option ℚ
  firstOnCallActionTime : Nat
  onCallShiftStart : Option Nat
  onCallShiftEnd : Option Nat
  assigneeCurrent : Option String
  firstAssignmentTime : Option Nat
  timeToFirstAssigneeCommentMinutes : Option ℚ
  firstAssigneeCommentTime : Nat
  resolutionDate : Option Nat
deriving DecidableEq, Repr

/-- The status strings produced by `calculateSLAKPIs`.  `resolved`
occurs only in the function's breach filters
(`r.status === 'responded' || r.status === 'resolved'`); no push ever
assigns it. -/
inductive SLAStatus where
  | responded
  | pending
  | respondedAfterShift
  | resolvedNoComment
  | noResponse
  | resolved
deriving DecidableEq, Repr

inductive SLARole where
  | onCall
  | assignee
deriving DecidableEq, Repr

structure SLAResult where
  ticket : String
  manager : String
  role : SLARole
  met : Bool
  responseMinutes : Option ℚ
  businessMinutes : Option ℚ
  actualMinutes : ℚ
  goalMinutes : ℚ
  createdOutsideHours : Bool
  status : SLAStatus
  shiftEnded : Option Bool
deriving DecidableEq, Repr

def ON_CALL_MANAGERS : List String :=
  ["Brad Goldberg", "Jeff Maciorowski", "Akshay Vijay Takkar",
   "Grigoriy Semenenko", "Randy Dahl", "Evgeniy Suhov", "Max Kuklin"]

/-- Email-to-name mapping for `whoWasOnCall`. -/
def emailToName : List (String × String) :=
  [("bgoldberg", "Brad Goldberg"), ("jmaciorowski", "Jeff Maciorowski"),
   ("atakkar", "Akshay Vijay Takkar"), ("gsemenenko", "Grigoriy Semenenko"),
   ("rdahl", "Randy Dahl"), ("esuhov", "Evgeniy Suhov"), ("mkuklin", "Max Kuklin")]

/-- `sla.goalDuration / (1000*60*60)` hours, times 60: the goal in minutes. -/
def goalMinutesOf (s : SLAEntry) : ℚ := s.goalDuration / (1000 * 60 * 60) * 60

/-- `shiftStart && createdDate < shiftStart ? shiftStart : createdDate`:
when accountability starts for the matched on-call shift. -/
def accountabilityStart (created : Nat) (shiftStart : Option Nat) : Nat :=
  match shiftStart with
  | some ss => if created < ss then ss else created
  | none => created

/-- `whoWasOnCall.startsWith('[')`: the single-character prefix test
marking gap sentinels such as `[Weekend]`. -/
def startsWithBracket (s : String) : Bool := s.data.head? == some '['

/-- On-call pathway of the `ticketsWithSLA.forEach` body in
`calculateSLAKPIs`. -/
def evaluateTicketOnCall (now : Nat) (ticket : Ticket) (goalMinutes : ℚ) :
    Option SLAResult :=
  match ticket.whoWasOnCall with
  | none => none
  | some whoWasOnCall =>
    if startsWithBracket whoWasOnCall then none
    else
      let onCallPerson := (emailToName.lookup whoWasOnCall).getD whoWasOnCall
      if ON_CALL_MANAGERS.contains onCallPerson then
        let createdOutsideHours := isOutsideBusinessHours ticket.created none
        match ticket.timeToFirstOnCallActionMinutes with
        | none =>
            let accStart := accountabilityStart ticket.created ticket.onCallShiftStart
            let pendingDuringShift : SLAResult :=
              let businessMinutes := calculateBusinessMinutes accStart now (some onCallPerson)
              { ticket := ticket.key, manager := onCallPerson, role := .onCall,
                met := decide ((businessMinutes : ℚ) ≤ goalMinutes),
                responseMinutes := none,
                businessMinutes := some (businessMinutes : ℚ),
                actualMinutes := ((now : ℚ) - (ticket.created : ℚ)) / (1000 * 60),
                goalMinutes := goalMinutes,
                createdOutsideHours := createdOutsideHours,
                status := .pending, shiftEnded := some false }
            match ticket.onCallShiftEnd with
            | some shiftEnd =>
                if shiftEnd < now then
                  -- shift ended without response: wall-clock minutes to shift end
                  some { ticket := ticket.key, manager := onCallPerson, role := .onCall,
                         met := false,
                         responseMinutes := none,
                         businessMinutes :=
                           some (((shiftEnd : ℚ) - (accStart : ℚ)) / (1000 * 60)),
                         actualMinutes := ((now : ℚ) - (ticket.created : ℚ)) / (1000 * 60),
                         goalMinutes := goalMinutes,
                         createdOutsideHours := createdOutsideHours,
                         status := .pending, shiftEnded := some true }
                else some pendingDuringShift
            | none => some pendingDuringShift
        | some onCallResponseMinutes =>
            let accStart := accountabilityStart ticket.created ticket.onCallShiftStart
            let responseDate := ticket.firstOnCallActionTime
            let respondedDuringShift : SLAResult :=
              let effectiveResponseTime :=
                match ticket.onCallShiftEnd with
                | some shiftEnd => if shiftEnd < responseDate then shiftEnd else responseDate
                | none => responseDate
              let businessMinutes :=
                calculateBusinessMinutes accStart effectiveResponseTime (some onCallPerson)
              { ticket := ticket.key, manager := onCallPerson, role := .onCall,
                met := decide ((businessMinutes : ℚ) ≤ goalMinutes),
                responseMinutes := some onCallResponseMinutes,
                businessMinutes := some (businessMinutes : ℚ),
                actualMinutes := onCallResponseMinutes,
                goalMinutes := goalMinutes,
                createdOutsideHours := createdOutsideHours,
                status := .responded, shiftEnded := none }
            match ticket.onCallShiftEnd with
            | some shiftEnd =>
                if shiftEnd < responseDate then
                  -- responded after shift ended: wall-clock minutes to shift end
                  some { ticket := ticket.key, manager := onCallPerson, role := .onCall,
                         met := false,
                         responseMinutes := some onCallResponseMinutes,
                         businessMinutes :=
                           some (((shiftEnd : ℚ) - (accStart : ℚ)) / (1000 * 60)),
                         actualMinutes := onCallResponseMinutes,
                         goalMinutes := goalMinutes,
                         createdOutsideHours := createdOutsideHours,
                         status := .respondedAfterShift, shiftEnded := none }
                else some respondedDuringShift
            | none => some respondedDuringShift
      else none

/-- Assignee pathway of the `ticketsWithSLA.forEach` body. -/
def evaluateTicketAssignee (now : Nat) (ticket : Ticket) (goalMinutes : ℚ) :
    Option SLAResult :=
  match ticket.assigneeCurrent, ticket.firstAssignmentTime with
  | some assignee, some assignmentDate =>
      let assignmentOutsideHours := isOutsideBusinessHours assignmentDate none
      match ticket.timeToFirstAssigneeCommentMinutes with
      | none =>
          match ticket.resolutionDate with
          | some resolutionDate =>
              let businessMinutes :=
                calculateBusinessMinutes assignmentDate resolutionDate (some assignee)
              let actualMinutes : ℚ :=
                ((resolutionDate : ℚ) - (assignmentDate : ℚ)) / (1000 * 60)
              some { ticket := ticket.key, manager := assignee, role := .assignee,
                     met := decide ((businessMinutes : ℚ) ≤ goalMinutes),
                     responseMinutes := some actualMinutes,
                     businessMinutes := some (businessMinutes : ℚ),
                     actualMinutes := actualMinutes,
                     goalMinutes := goalMinutes,
                     createdOutsideHours := assignmentOutsideHours,
                     status := .resolvedNoComment, shiftEnded := none }
          | none =>
              let businessMinutes :=
                calculateBusinessMinutes assignmentDate now (some assignee)
              let actualMinutes : ℚ :=
                ((now : ℚ) - (assignmentDate : ℚ)) / (1000 * 60)
              some { ticket := ticket.key, manager := assignee, role := .assignee,
                     met := decide ((businessMinutes : ℚ) ≤ goalMinutes),
                     responseMinutes := none,
                     businessMinutes := some (businessMinutes : ℚ),
                     actualMinutes := actualMinutes,
                     goalMinutes := goalMinutes,
                     createdOutsideHours := assignmentOutsideHours,
                     status := .noResponse, shiftEnded := none }
      | some assigneeResponseMinutes =>
          let businessMinutes :=
            calculateBusinessMinutes assignmentDate ticket.firstAssigneeCommentTime
              (some assignee)
          some { ticket := ticket.key, manager := assignee, role := .assignee,
                 met := decide ((businessMinutes : ℚ) ≤ goalMinutes),
                 responseMinutes := some assigneeResponseMinutes,
                 businessMinutes := some (businessMinutes : ℚ),
                 actualMinutes := assigneeResponseMinutes,
                 goalMinutes := goalMinutes,
                 createdOutsideHours := assignmentOutsideHours,
                 status := .responded, shiftEnded := none }
  | _, _ => none

/-- Outcomes one ticket contributes to `slaResults` (on-call push first,
then assignee push). -/
def evaluateTicket (now : Nat) (ticket : Ticket) : List SLAResult :=
  match ticket.sla.head? with
  | none => []
  | some sla0 =>
      let goalMinutes := goalMinutesOf sla0
      (evaluateTicketOnCall now ticket goalMinutes).toList ++
        (evaluateTicketAssignee now ticket goalMinutes).toList

/-- `metrics.filter(m => m.sla && m.sla.length > 0)`. -/
def ticketsWithSLA (metrics : List Ticket) : List Ticket :=
  metrics.filter (fun m => !m.sla.isEmpty)

/-- The full `slaResults` array accumulated by the `forEach`. -/
def slaResultsOf (now : Nat) (metrics : List Ticket) : List SLAResult :=
  (ticketsWithSLA metrics).flatMap (evaluateTicket now)

/-! ### `kpi.js`: aggregation -/

/-- `r.met` (the `slaResults.filter(r => r.met)` predicate). -/
def metPred (r : SLAResult) : Bool := r.met

/-- `!r.met && (r.status === 'responded' || r.status === 'resolved')`. -/
def breachedPred (r : SLAResult) : Bool :=
  !r.met && (r.status == .responded || r.status == .resolved)

/-- `r.status === 'pending'`. -/
def pendingPred (r : SLAResult) : Bool := r.status == .pending

def metCountOf (rs : List SLAResult) : Nat := (rs.filter metPred).length

def breachedCountOf (rs : List SLAResult) : Nat := (rs.filter breachedPred).length

def pendingCountOf (rs : List SLAResult) : Nat := (rs.filter pendingPred).length

/-- `x.toFixed(1)` modelled as the rational the rendered string denotes
(nearest tenth, halves away from zero for the non-negative rates at
hand). -/
def toFixed1 (q : ℚ) : ℚ := ((⌊q * 10 + 1 / 2⌋ : ℤ) : ℚ) / 10

/-- The fixed buckets of `categorizeResponseTimes`. -/
structure ResponseTimeDistribution where
  under1h : Nat
  from1hTo2h : Nat
  from2hTo4h : Nat
  from4hTo8h : Nat
  over8h : Nat
  noResponse : Nat
deriving DecidableEq, Repr

/-- `r.businessMinutes !== null && r.businessMinutes !== undefined
? r.businessMinutes : r.responseMinutes`. -/
def effectiveMinutes (r : SLAResult) : Option ℚ :=
  match r.businessMinutes with
  | some m => some m
  | none => r.responseMinutes

/-- One iteration of the `results.forEach` in `categorizeResponseTimes`. -/
def bucketResult (cats : ResponseTimeDistribution) (r : SLAResult) :
    ResponseTimeDistribution :=
  match effectiveMinutes r with
  | none => { cats with noResponse := cats.noResponse + 1 }
  | some minutes =>
      if minutes < 60 then { cats with under1h := cats.under1h + 1 }
      else if minutes < 120 then { cats with from1hTo2h := cats.from1hTo2h + 1 }
      else if minutes < 240 then { cats with from2hTo4h := cats.from2hTo4h + 1 }
      else if minutes < 480 then { cats with from4hTo8h := cats.from4hTo8h + 1 }
      else { cats with over8h := cats.over8h + 1 }

/-- `categorizeResponseTimes(results)` from `kpi.js`. -/
def categorizeResponseTimes (results : List SLAResult) : ResponseTimeDistribution :=
  results.foldl bucketResult ⟨0, 0, 0, 0, 0, 0⟩

/-- Per-manager tally cell of `managerPerformance`. -/
structure ManagerStats where
  met : Nat
  breached : Nat
  pending : Nat
  total : Nat
deriving DecidableEq, Repr

/-- The body of the `slaResults.forEach` that fills `managerPerformance`:
`total++`, then pending / met / breached in that priority. -/
def tallyResult (s : ManagerStats) (r : SLAResult) : ManagerStats :=
  let s := { s with total := s.total + 1 }
  if r.status == .pending then { s with pending := s.pending + 1 }
  else if r.met then { s with met := s.met + 1 }
  else { s with breached := s.breached + 1 }

/-- Insert-or-update keyed by `r.manager`, preserving first-seen order
(JavaScript object keys enumerate in insertion order). -/
def upsertManager (r : SLAResult) :
    List (String × ManagerStats) → List (String × ManagerStats)
  | [] => [(r.manager, tallyResult ⟨0, 0, 0, 0⟩ r)]
  | (k, v) :: rest =>
      if k == r.manager then (k, tallyResult v r) :: rest
      else (k, v) :: upsertManager r rest

/-- `managerPerformance` as an insertion-ordered association list. -/
def managerPerformance (rs : List SLAResult) : List (String × ManagerStats) :=
  rs.foldl (fun acc r => upsertManager r acc) []

structure ManagerKPI where
  manager : String
  met : Nat
  breached : Nat
  pending : Nat
  total : Nat
  complianceRate : ℚ
deriving DecidableEq, Repr

def mkManagerKPI (cell : String × ManagerStats) : ManagerKPI :=
  { manager := cell.1, met := cell.2.met, breached := cell.2.breached,
    pending := cell.2.pending, total := cell.2.total,
    complianceRate :=
      if cell.2.total > 0 then toFixed1 ((cell.2.met : ℚ) / (cell.2.total : ℚ) * 100)
      else 0 }

/-- Stable insertion for `.sort((a, b) => b.complianceRate - a.complianceRate)`
(descending; JavaScript's sort is stable, ties keep their order). -/
def insertByRateDesc (x : ManagerKPI) : List ManagerKPI → List ManagerKPI
  | [] => [x]
  | y :: ys =>
      if y.complianceRate ≤ x.complianceRate then x :: y :: ys
      else y :: insertByRateDesc x ys

def sortByRateDesc : List ManagerKPI → List ManagerKPI
  | [] => []
  | x :: xs => insertByRateDesc x (sortByRateDesc xs)

/-- One of the `overall` / `onCall` / `assignee` blocks of the returned
summary (`avgResponseTime`, a display string, is not modelled). -/
structure RoleBlock where
  totalTickets : Nat
  metSLA : Nat
  breachedSLA : Nat
  pendingSLA : Nat
  complianceRate : ℚ
deriving DecidableEq, Repr

/-- The summary object returned by `calculateSLAKPIs` (restricted to the
components the claims speak about; `onCallManagerKPIs`, `developerKPIs`
and `timeAnalysis` are not modelled). -/
structure KPIReport where
  overall : RoleBlock
  onCall : RoleBlock
  assignee : RoleBlock
  managerKPIs : List ManagerKPI
  responseTimeDistribution : ResponseTimeDistribution
  details : List SLAResult
deriving DecidableEq, Repr

/-- `calculateSLAKPIs(metricsData)` from `kpi.js`, with the clock passed
explicitly. -/
def calculateSLAKPIs (now : Nat) (metrics : List Ticket) : KPIReport :=
  let totalTickets := metrics.length
  let slaResults := slaResultsOf now metrics
  let metCount := metCountOf slaResults
  let breachedCount := breachedCountOf slaResults
  let pendingCount := pendingCountOf slaResults
  let complianceRate : ℚ :=
    if totalTickets > 0 then ((metCount : ℚ) / (totalTickets : ℚ)) * 100 else 0
  let onCallResults := slaResults.filter (fun r => r.role == .onCall)
  let assigneeResults := slaResults.filter (fun r => r.role == .assignee)
  { overall :=
      { totalTickets := totalTickets, metSLA := metCount,
        breachedSLA := breachedCount, pendingSLA := pendingCount,
        complianceRate := toFixed1 complianceRate },
    onCall :=
      { totalTickets := onCallResults.length, metSLA := metCountOf onCallResults,
        breachedSLA := breachedCountOf onCallResults,
        pendingSLA := pendingCountOf onCallResults,
        complianceRate :=
          if onCallResults.length > 0 then
            toFixed1 ((metCountOf onCallResults : ℚ) / (onCallResults.length : ℚ) * 100)
          else 0 },
    assignee :=
      { totalTickets := assigneeResults.length, metSLA := metCountOf assigneeResults,
        breachedSLA := breachedCountOf assigneeResults,
        pendingSLA := pendingCountOf assigneeResults,
        complianceRate :=
          if assigneeResults.length > 0 then
            toFixed1 ((metCountOf assigneeResults : ℚ) / (assigneeResults.length : ℚ) * 100)
          else 0 },
    managerKPIs := sortByRateDesc ((managerPerformance slaResults).map mkManagerKPI),
    responseTimeDistribution := categorizeResponseTimes slaResults,
    details := slaResults }

/-! ### Definitions following the spec's words (for comparison only) -/

/-- Following the spec's words, not the source: the overall compliance
rate as claim C2 states it — `metCount / totalOutcomesWithGoal` as a
percentage to one decimal, `0` when the denominator is zero (every
outcome carries a goal, so the denominator is the number of outcomes). -/
def specClaimedComplianceRate (now : Nat) (metrics : List Ticket) : ℚ :=
  let slaResults := slaResultsOf now metrics
  if slaResults.length > 0 then
    toFixed1 ((metCountOf slaResults : ℚ) / (slaResults.length : ℚ) * 100)
  else 0

/-- Following the spec's words: merging two partial response-time
histograms (counts merge by addition). -/
def mergeDistributions (a b : ResponseTimeDistribution) : ResponseTimeDistribution :=
  ⟨a.under1h + b.under1h, a.from1hTo2h + b.from1hTo2h, a.from2hTo4h + b.from2hTo4h,
   a.from4hTo8h + b.from4hTo8h, a.over8h + b.over8h, a.noResponse + b.noResponse⟩

/-! ### Concrete fixtures

Instants use January 1970: day 1 (Jan 2) is a Friday, day 2 a Saturday,
day 4 (Jan 5) a Monday — only the weekday and hour of an instant matter
to the engine. -/

/-- Friday 21:00. -/
def fri2100 : Nat := 1 * msPerDay + 21 * msPerHour

/-- Friday 13:00. -/
def fri1300 : Nat := 1 * msPerDay + 13 * msPerHour

/-- Saturday 00:00. -/
def sat0000 : Nat := 2 * msPerDay

/-- Saturday 01:00. -/
def sat0100 : Nat := 2 * msPerDay + 1 * msPerHour

/-- Monday 13:00. -/
def mon1300 : Nat := 4 * msPerDay + 13 * msPerHour

/-- Monday 21:30. -/
def mon2130 : Nat := 4 * msPerDay + 21 * msPerHour + 30 * msPerMinute

/-- Tuesday 14:00. -/
def tue1400 : Nat := 5 * msPerDay + 14 * msPerHour

/-- A ticket whose on-call responder acted after the shift ended:
created Friday 21:00 during a Friday 13:00 – Saturday 00:00 shift,
responded Saturday 01:00.  Goal 4 h. -/
def tkAfterShift : Ticket :=
  { key := "TK-1", created := fri2100, sla := [⟨14400000⟩],
    whoWasOnCall := some "bgoldberg",
    timeToFirstOnCallActionMinutes := some 240,
    firstOnCallActionTime := sat0100,
    onCallShiftStart := some fri1300, onCallShiftEnd := some sat0000,
    assigneeCurrent := none, firstAssignmentTime := none,
    timeToFirstAssigneeCommentMinutes := none, firstAssigneeCommentTime := 0,
    resolutionDate := none }

/-- Same shift, but no responder action yet. -/
def tkPendingEnded : Ticket :=
  { tkAfterShift with timeToFirstOnCallActionMinutes := none }

/-- A ticket measured only on the assignee pathway: assigned Monday
13:00, first assignee comment 5 minutes later.  Goal 4 h. -/
def tkAssigneeQuick (assignee : String) : Ticket :=
  { key := "TK-2", created := mon1300, sla := [⟨14400000⟩],
    whoWasOnCall := none,
    timeToFirstOnCallActionMinutes := none, firstOnCallActionTime := 0,
    onCallShiftStart := none, onCallShiftEnd := none,
    assigneeCurrent := some assignee, firstAssignmentTime := some mon1300,
    timeToFirstAssigneeCommentMinutes := some 5,
    firstAssigneeCommentTime := mon1300 + 5 * msPerMinute,
    resolutionDate := none }

/-- A ticket with an SLA entry whose `goalDuration` is 0. -/
def tkZeroGoal : Ticket := { tkAssigneeQuick "Alice Dev" with sla := [⟨0⟩] }

/-- A ticket with no SLA entries at all. -/
def tkNoSla : Ticket := { tkAssigneeQuick "Alice Dev" with sla := [] }

/-- The cross-day ticket of the spec's concrete test: created Monday
21:30, on-call responder acts Tuesday 14:00, goal 240 minutes. -/
def tkCrossDay : Ticket :=
  { key := "TK-3", created := mon2130, sla := [⟨14400000⟩],
    whoWasOnCall := some "bgoldberg",
    timeToFirstOnCallActionMinutes := some 990,
    firstOnCallActionTime := tue1400,
    onCallShiftStart := none, onCallShiftEnd := none,
    assigneeCurrent := none, firstAssignmentTime := none,
    timeToFirstAssigneeCommentMinutes := none, firstAssigneeCommentTime := 0,
    resolutionDate := none }

/-- The outcome `calculateSLAKPIs` produces for `tkAfterShift`. -/
def outAfterShift : SLAResult :=
  { ticket := "TK-1", manager := "Brad Goldberg", role := .onCall,
    met := false, responseMinutes := some 240, businessMinutes := some 180,
    actualMinutes := 240, goalMinutes := 240, createdOutsideHours := false,
    status := .respondedAfterShift, shiftEnded := none }

/-- An outcome record with no `businessMinutes` but a `responseMinutes`
(`calculateSLAKPIs` itself always fills `businessMinutes`, but
`categorizeResponseTimes` is defined over arbitrary outcome records). -/
def rNoBusinessMinutes : SLAResult :=
  { ticket := "TK-9", manager := "Alice Dev", role := .assignee,
    met := true, responseMinutes := some 30, businessMinutes := none,
    actualMinutes := 30, goalMinutes := 240, createdOutsideHours := false,
    status := .responded, shiftEnded := none }

/-! Bucket membership predicates describing `categorizeResponseTimes`
(used to state which single bucket an outcome lands in). -/

def bucketUnder1h (r : SLAResult) : Bool :=
  match effectiveMinutes r with
  | some m => decide (m < 60)
  | none => false

def bucket1hTo2h (r : SLAResult) : Bool :=
  match effectiveMinutes r with
  | some m => decide (60 ≤ m) && decide (m < 120)
  | none => false

def bucket2hTo4h (r : SLAResult) : Bool :=
  match effectiveMinutes r with
  | some m => decide (120 ≤ m) && decide (m < 240)
  | none => false

def bucket4hTo8h (r : SLAResult) : Bool :=
  match effectiveMinutes r with
  | some m => decide (240 ≤ m) && decide (m < 480)
  | none => false

def bucketOver8h (r : SLAResult) : Bool :=
  match effectiveMinutes r with
  | some m => decide (480 ≤ m)
  | none => false

def bucketNoResponse (r : SLAResult) : Bool := (effectiveMinutes r).isNone

/-- Total of all six histogram buckets. -/
def sumDist (d : ResponseTimeDistribution) : Nat :=
  d.under1h + d.from1hTo2h + d.from2hTo4h + d.from4hTo8h + d.over8h + d.noResponse


/-! ## Theorems -/

/-- C7: with the default 13:00–22:00 UTC window, a ticket created Monday
21:30 whose responder acts Tuesday 14:00 yields exactly 90 business
minutes (30 from Monday 21:30–22:00 plus 60 from Tuesday 13:00–14:00),
and with a 240-minute goal the resulting on-call outcome is met. -/
theorem c7_cross_day_concrete :
    calculateBusinessMinutes mon2130 tue1400 none = 90 ∧
    calculateBusinessMinutes mon2130 (4 * msPerDay + 22 * msPerHour) none = 30 ∧
    calculateBusinessMinutes (5 * msPerDay + 13 * msPerHour) tue1400 none = 60 ∧
    evaluateTicket 0 tkCrossDay =
      [{ ticket := "TK-3", manager := "Brad Goldberg", role := .onCall, met := true,
         responseMinutes := some 990, businessMinutes := some 90, actualMinutes := 990,
         goalMinutes := 240, createdOutsideHours := false, status := .responded,
         shiftEnded := none }] := by
  refine ⟨by decide, by decide, by decide, ?_⟩
  have h1 : startsWithBracket "bgoldberg" = false := by decide
  have h2 : emailToName.lookup "bgoldberg" = some "Brad Goldberg" := by decide
  have h3 : "Brad Goldberg" ∈ ON_CALL_MANAGERS := by decide
  have h4 : calculateBusinessMinutes mon2130 tue1400 (some "Brad Goldberg") = 90 := by decide
  have h5 : isOutsideBusinessHours mon2130 none = false := by decide
  norm_num [evaluateTicket, evaluateTicketOnCall, evaluateTicketAssignee, tkCrossDay,
    accountabilityStart, goalMinutesOf, h1, h2, h3, h4, h5]

/-- C4: the accountability start used by the on-call pathway is the
shift start when the ticket was created strictly before the matched
shift began, and the creation instant otherwise; it is never earlier
than the shift start. -/
theorem c4_accountability_start (created ss : Nat) :
    (created < ss → accountabilityStart created (some ss) = ss) ∧
    (ss ≤ created → accountabilityStart created (some ss) = created) ∧
    ss ≤ accountabilityStart created (some ss) := by
  simp only [accountabilityStart]
  refine ⟨fun h => if_pos h, fun h => if_neg (by omega), ?_⟩
  split <;> omega

theorem c4_accountability_start_witness :
    accountabilityStart 100 (some 200) = 200 ∧ accountabilityStart 300 (some 200) = 300 :=
  ⟨(c4_accountability_start 100 200).1 (by decide),
   (c4_accountability_start 300 200).2.1 (by decide)⟩

/-- C5 counterexample: a ticket whose first SLA entry has
`goalDuration = 0` (non-positive) is *not* skipped — `calculateSLAKPIs`
still produces an outcome for it, contradicting the claim that such a
ticket produces no outcomes on either pathway. -/
theorem c5_counterexample :
    (tkZeroGoal.sla.map (fun s => s.goalDuration)) = [0] ∧
    (slaResultsOf 0 [tkZeroGoal]).length = 1 ∧ (1 : Nat) ≠ 0 := by
  refine ⟨?_, by decide, by decide⟩
  norm_num [tkZeroGoal, tkAssigneeQuick]

/-- C5 (amended): only a ticket with *no* SLA entries is skipped — it
produces no outcome on either pathway and contributes nothing to
`slaResults`; an SLA entry with non-positive `goalDuration` is not
filtered out. -/
theorem c5_empty_sla_skipped (now : Nat) (t : Ticket) (ts : List Ticket)
    (h : t.sla = []) :
    evaluateTicket now t = [] ∧ slaResultsOf now (t :: ts) = slaResultsOf now ts := by
  constructor
  · simp [evaluateTicket, h]
  · simp [slaResultsOf, ticketsWithSLA, h]

theorem c5_empty_sla_skipped_witness :
    evaluateTicket 0 tkNoSla = [] ∧ slaResultsOf 0 [tkNoSla] = slaResultsOf 0 [] :=
  c5_empty_sla_skipped 0 tkNoSla [] (by decide)

/-- C2 counterexample: with one no-SLA ticket and one met outcome, the
code reports 50 % (denominator `metrics.length` = 2), while the claimed
formula `metCount / totalOutcomesWithGoal` gives 100 %. -/
theorem c2_counterexample :
    (calculateSLAKPIs 0 [tkNoSla, tkAssigneeQuick "Alice Dev"]).overall.complianceRate = 50 ∧
    specClaimedComplianceRate 0 [tkNoSla, tkAssigneeQuick "Alice Dev"] = 100 ∧
    (50 : ℚ) ≠ 100 := by
  have h4 : calculateBusinessMinutes mon1300 (mon1300 + 5 * msPerMinute) (some "Alice Dev") = 5 := by
    decide
  have h5 : isOutsideBusinessHours mon1300 none = false := by decide
  refine ⟨?_, ?_, by norm_num⟩ <;>
  norm_num [calculateSLAKPIs, specClaimedComplianceRate, slaResultsOf, ticketsWithSLA,
    evaluateTicket, evaluateTicketOnCall, evaluateTicketAssignee, tkNoSla, tkAssigneeQuick,
    goalMinutesOf, h4, h5, metCountOf, breachedCountOf, pendingCountOf, metPred, breachedPred,
    pendingPred, toFixed1, List.filter, List.flatMap]

/-- What `calculateSLAKPIs` produces for `tkAfterShift` (one
responded-after-shift outcome, with wall-clock `businessMinutes`). -/
theorem evaluateTicket_tkAfterShift : evaluateTicket 0 tkAfterShift = [outAfterShift] := by
  have h1 : startsWithBracket "bgoldberg" = false := by decide
  have h2 : emailToName.lookup "bgoldberg" = some "Brad Goldberg" := by decide
  have h3 : "Brad Goldberg" ∈ ON_CALL_MANAGERS := by decide
  have h5 : isOutsideBusinessHours 162000000 none = false := by decide
  norm_num [evaluateTicket, evaluateTicketOnCall, evaluateTicketAssignee, tkAfterShift,
    outAfterShift, accountabilityStart, goalMinutesOf, h1, h2, h3, h5, fri2100, fri1300,
    sat0000, sat0100, msPerDay, msPerHour, msPerMinute]

/-- C1 counterexample: for a ticket answered after its shift ended, the
outcome's `businessMinutes` is the raw wall-clock span from
accountability start to shift end (180 minutes across Friday 21:00 –
Saturday 00:00), not the BusinessCalendar value over the same bounded
interval (60 minutes). -/
theorem c1_counterexample :
    evaluateTicket 0 tkAfterShift = [outAfterShift] ∧
    outAfterShift.businessMinutes = some 180 ∧
    calculateBusinessMinutes
      (accountabilityStart tkAfterShift.created tkAfterShift.onCallShiftStart)
      sat0000 (some "Brad Goldberg") = 60 ∧
    (180 : ℚ) ≠ 60 :=
  ⟨evaluateTicket_tkAfterShift, rfl, by decide, by norm_num⟩

/-- C9 counterexample: an outcome with `businessMinutes` absent but
`responseMinutes = 30` is counted in the under-1-hour bucket, not the
no-response bucket. -/
theorem c9_counterexample :
    rNoBusinessMinutes.businessMinutes = none ∧
    categorizeResponseTimes [rNoBusinessMinutes] = ⟨1, 0, 0, 0, 0, 0⟩ ∧
    (categorizeResponseTimes [rNoBusinessMinutes]).noResponse = 0 := by
  refine ⟨rfl, ?_, ?_⟩ <;>
  norm_num [categorizeResponseTimes, bucketResult, effectiveMinutes, rNoBusinessMinutes]

/-- C6 counterexample: an instant before the schedule start date that is
covered by a shift still yields the `[Before Oct 31]` sentinel, because
`findShiftAtTime` tests the start date before scanning the timeline. -/
theorem c6_counterexample :
    findShiftAtTime [⟨"bgoldberg", 0, 2000000000000⟩] 1000000000000 = .beforeOct31 ∧
    ((0 : Nat) ≤ 1000000000000 ∧ (1000000000000 : Nat) ≤ 2000000000000) ∧
    ShiftLookup.beforeOct31 ≠ .found ⟨"bgoldberg", 0, 2000000000000⟩ := by
  decide

/-- No branch of the on-call pathway assigns status `resolved`. -/
theorem evaluateTicketOnCall_status_ne_resolved (now : Nat) (t : Ticket) (g : ℚ)
    (r : SLAResult) (h : evaluateTicketOnCall now t g = some r) :
    r.status ≠ SLAStatus.resolved := by
  unfold evaluateTicketOnCall at h
  dsimp only at h
  repeat' split at h
  all_goals first
    | exact Option.noConfusion h
    | (injection h with h; subst h; simp)

/-- No branch of the assignee pathway assigns status `resolved`. -/
theorem evaluateTicketAssignee_status_ne_resolved (now : Nat) (t : Ticket) (g : ℚ)
    (r : SLAResult) (h : evaluateTicketAssignee now t g = some r) :
    r.status ≠ SLAStatus.resolved := by
  unfold evaluateTicketAssignee at h
  dsimp only at h
  repeat' split at h
  all_goals first
    | exact Option.noConfusion h
    | (injection h with h; subst h; simp)

/-- C10: the met/breached/pending counts do not partition the outcome
set.  A missed-goal outcome whose status is `responded-after-shift`,
`resolved-no-comment` or `no-response` is counted by none of the three
filters; the status `resolved` named in the breach filter is never
produced by the evaluator; and on a concrete input the three overall
counts sum to strictly less than the number of outcomes. -/
theorem c10_counts_not_partition :
    (∀ r : SLAResult, r.met = false →
        r.status = .respondedAfterShift ∨ r.status = .resolvedNoComment ∨
          r.status = .noResponse →
        metPred r = false ∧ breachedPred r = false ∧ pendingPred r = false) ∧
    (∀ (now : Nat) (t : Ticket) (r : SLAResult),
        r ∈ evaluateTicket now t → r.status ≠ .resolved) ∧
    ((calculateSLAKPIs 0 [tkAfterShift]).overall.metSLA +
        (calculateSLAKPIs 0 [tkAfterShift]).overall.breachedSLA +
        (calculateSLAKPIs 0 [tkAfterShift]).overall.pendingSLA <
      (calculateSLAKPIs 0 [tkAfterShift]).details.length) := by
  refine ⟨?_, ?_, by decide⟩
  · intro r hm hs
    rcases hs with hs | hs | hs <;>
      simp [metPred, breachedPred, pendingPred, hm, hs]
  · intro now t r hr
    unfold evaluateTicket at hr
    rcases hhead : t.sla.head? with _ | sla0
    · rw [hhead] at hr; simp at hr
    · rw [hhead] at hr
      dsimp only at hr
      rcases List.mem_append.1 hr with hmem | hmem
      · rcases Option.mem_toList.1 hmem with ho
        exact evaluateTicketOnCall_status_ne_resolved now t (goalMinutesOf sla0) r ho
      · rcases Option.mem_toList.1 hmem with ho
        exact evaluateTicketAssignee_status_ne_resolved now t (goalMinutesOf sla0) r ho

theorem c10_counts_not_partition_witness :
    (metPred outAfterShift = false ∧ breachedPred outAfterShift = false ∧
      pendingPred outAfterShift = false) ∧
    outAfterShift.status ≠ SLAStatus.resolved :=
  ⟨c10_counts_not_partition.1 outAfterShift rfl (Or.inl rfl),
   c10_counts_not_partition.2.1 0 tkAfterShift outAfterShift
     (evaluateTicket_tkAfterShift ▸ List.mem_singleton.2 rfl)⟩

/-- C2 (amended): the overall compliance rate is
`metCount / metrics.length` (the number of tickets examined, including
tickets with no SLA data), as a percentage to one decimal; when the
ticket list is empty, or when there are no outcomes at all, it is `0` —
never `NaN` and never an exception. -/
theorem c2_compliance_formula (now : Nat) (metrics : List Ticket) :
    (calculateSLAKPIs now metrics).overall.complianceRate =
      (if 0 < metrics.length then
        toFixed1 ((metCountOf (slaResultsOf now metrics) : ℚ) / (metrics.length : ℚ) * 100)
      else 0) ∧
    (slaResultsOf now metrics = [] →
      (calculateSLAKPIs now metrics).overall.complianceRate = 0) := by
  constructor
  · simp only [calculateSLAKPIs]
    split
    · rfl
    · norm_num [toFixed1]
  · intro h
    simp only [calculateSLAKPIs, h]
    have hz : metCountOf ([] : List SLAResult) = 0 := rfl
    simp only [hz]
    split <;> norm_num [toFixed1]

theorem c2_compliance_formula_witness :
    (calculateSLAKPIs 0 ([] : List Ticket)).overall.complianceRate = 0 :=
  (c2_compliance_formula 0 []).2 rfl

/-- The two-ticket summary used to refute C8, first-seen order
Alice before Bob. -/
theorem managerKPIs_order_AB :
    (calculateSLAKPIs 0 [tkAssigneeQuick "Alice Dev", tkAssigneeQuick "Bob Dev"]).managerKPIs.map
      (fun k => k.manager) = ["Alice Dev", "Bob Dev"] := by
  have h4a : calculateBusinessMinutes mon1300 (mon1300 + 5 * msPerMinute)
      (some "Alice Dev") = 5 := by decide
  have h4b : calculateBusinessMinutes mon1300 (mon1300 + 5 * msPerMinute)
      (some "Bob Dev") = 5 := by decide
  have h5 : isOutsideBusinessHours mon1300 none = false := by decide
  norm_num [calculateSLAKPIs, slaResultsOf, ticketsWithSLA, evaluateTicket,
    evaluateTicketOnCall, evaluateTicketAssignee, tkAssigneeQuick, goalMinutesOf, h4a, h4b, h5,
    managerPerformance, upsertManager, tallyResult, mkManagerKPI, sortByRateDesc,
    insertByRateDesc, toFixed1, List.filter, List.flatMap]

/-- Same outcomes, permuted input: Bob before Alice. -/
theorem managerKPIs_order_BA :
    (calculateSLAKPIs 0 [tkAssigneeQuick "Bob Dev", tkAssigneeQuick "Alice Dev"]).managerKPIs.map
      (fun k => k.manager) = ["Bob Dev", "Alice Dev"] := by
  have h4a : calculateBusinessMinutes mon1300 (mon1300 + 5 * msPerMinute)
      (some "Alice Dev") = 5 := by decide
  have h4b : calculateBusinessMinutes mon1300 (mon1300 + 5 * msPerMinute)
      (some "Bob Dev") = 5 := by decide
  have h5 : isOutsideBusinessHours mon1300 none = false := by decide
  norm_num [calculateSLAKPIs, slaResultsOf, ticketsWithSLA, evaluateTicket,
    evaluateTicketOnCall, evaluateTicketAssignee, tkAssigneeQuick, goalMinutesOf, h4a, h4b, h5,
    managerPerformance, upsertManager, tallyResult, mkManagerKPI, sortByRateDesc,
    insertByRateDesc, toFixed1, List.filter, List.flatMap]

/-- C8 counterexample: aggregation is not commutative at the summary
level.  Permuting the ticket list permutes the outcome set, and with two
managers tied at a 100 % compliance rate the stable sort keeps their
first-seen order, so `managerKPIs` comes out in a different order and
the two summaries differ as values. -/
theorem c8_counterexample :
    ((calculateSLAKPIs 0 [tkAssigneeQuick "Alice Dev", tkAssigneeQuick "Bob Dev"]).managerKPIs.map
        (fun k => k.manager) = ["Alice Dev", "Bob Dev"]) ∧
    ((calculateSLAKPIs 0 [tkAssigneeQuick "Bob Dev", tkAssigneeQuick "Alice Dev"]).managerKPIs.map
        (fun k => k.manager) = ["Bob Dev", "Alice Dev"]) ∧
    ([tkAssigneeQuick "Bob Dev", tkAssigneeQuick "Alice Dev"].Perm
        [tkAssigneeQuick "Alice Dev", tkAssigneeQuick "Bob Dev"]) ∧
    calculateSLAKPIs 0 [tkAssigneeQuick "Alice Dev", tkAssigneeQuick "Bob Dev"] ≠
      calculateSLAKPIs 0 [tkAssigneeQuick "Bob Dev", tkAssigneeQuick "Alice Dev"] := by
  refine ⟨managerKPIs_order_AB, managerKPIs_order_BA, List.Perm.swap _ _ _, fun h => ?_⟩
  have hc := congrArg (fun rep => rep.managerKPIs.map (fun k => k.manager)) h
  simp only [managerKPIs_order_AB, managerKPIs_order_BA] at hc
  exact absurd hc (by decide)

/-- Incrementing an accumulator bucket is adding a one-hot histogram. -/
theorem bucketResult_merge (acc : ResponseTimeDistribution) (r : SLAResult) :
    bucketResult acc r = mergeDistributions acc (bucketResult ⟨0, 0, 0, 0, 0, 0⟩ r) := by
  rcases acc with ⟨a, b, c, d, e, f⟩
  unfold bucketResult
  rcases h : effectiveMinutes r with _ | m
  · simp [mergeDistributions]
  · dsimp only
    split_ifs <;> simp [mergeDistributions]

theorem mergeDistributions_assoc (a b c : ResponseTimeDistribution) :
    mergeDistributions (mergeDistributions a b) c =
      mergeDistributions a (mergeDistributions b c) := by
  rcases a with ⟨_, _, _, _, _, _⟩
  rcases b with ⟨_, _, _, _, _, _⟩
  rcases c with ⟨_, _, _, _, _, _⟩
  simp [mergeDistributions, Nat.add_assoc]

/-- The histogram fold from any accumulator splits off the accumulator. -/
theorem categorize_foldl (rs : List SLAResult) (acc : ResponseTimeDistribution) :
    rs.foldl bucketResult acc = mergeDistributions acc (categorizeResponseTimes rs) := by
  induction rs generalizing acc with
  | nil =>
      rcases acc with ⟨a, b, c, d, e, f⟩
      simp [categorizeResponseTimes, mergeDistributions]
  | cons r rs ih =>
      show rs.foldl bucketResult (bucketResult acc r) = _
      rw [ih (bucketResult acc r), bucketResult_merge acc r, mergeDistributions_assoc]
      have : categorizeResponseTimes (r :: rs) =
          mergeDistributions (bucketResult ⟨0, 0, 0, 0, 0, 0⟩ r)
            (categorizeResponseTimes rs) := by
        show rs.foldl bucketResult (bucketResult ⟨0, 0, 0, 0, 0, 0⟩ r) = _
        exact ih _
      rw [this]

theorem categorize_cons (r : SLAResult) (rs : List SLAResult) :
    categorizeResponseTimes (r :: rs) =
      mergeDistributions (bucketResult ⟨0, 0, 0, 0, 0, 0⟩ r)
        (categorizeResponseTimes rs) := by
  show rs.foldl bucketResult (bucketResult ⟨0, 0, 0, 0, 0, 0⟩ r) = _
  exact categorize_foldl rs _

theorem categorize_append (l1 l2 : List SLAResult) :
    categorizeResponseTimes (l1 ++ l2) =
      mergeDistributions (categorizeResponseTimes l1) (categorizeResponseTimes l2) := by
  show (l1 ++ l2).foldl bucketResult ⟨0, 0, 0, 0, 0, 0⟩ = _
  rw [List.foldl_append]
  exact categorize_foldl l2 _

/-- The histogram is the tuple of counts of the six bucket predicates. -/
theorem categorize_counts (rs : List SLAResult) :
    categorizeResponseTimes rs =
      ⟨rs.countP bucketUnder1h, rs.countP bucket1hTo2h, rs.countP bucket2hTo4h,
       rs.countP bucket4hTo8h, rs.countP bucketOver8h, rs.countP bucketNoResponse⟩ := by
  induction rs with
  | nil => rfl
  | cons r rs ih =>
      rw [categorize_cons, ih]
      rcases h : effectiveMinutes r with _ | m
      · simp [bucketResult, h, mergeDistributions, List.countP_cons, bucketUnder1h,
          bucket1hTo2h, bucket2hTo4h, bucket4hTo8h, bucketOver8h, bucketNoResponse,
          Nat.add_comm]
      · simp only [bucketResult, h]
        split_ifs with h1 h2 h3 h4 <;>
          simp [mergeDistributions, List.countP_cons, bucketUnder1h, bucket1hTo2h,
            bucket2hTo4h, bucket4hTo8h, bucketOver8h, bucketNoResponse, h, h1, *,
            not_lt.1, le_of_not_lt, Nat.add_comm] <;>
          (repeat' constructor) <;> intros <;> linarith

theorem sumDist_merge (a b : ResponseTimeDistribution) :
    sumDist (mergeDistributions a b) = sumDist a + sumDist b := by
  rcases a with ⟨_, _, _, _, _, _⟩
  rcases b with ⟨_, _, _, _, _, _⟩
  simp [sumDist, mergeDistributions]
  omega

theorem sumDist_bucketResult_zero (r : SLAResult) :
    sumDist (bucketResult ⟨0, 0, 0, 0, 0, 0⟩ r) = 1 := by
  unfold bucketResult
  rcases h : effectiveMinutes r with _ | m
  · simp [sumDist]
  · dsimp only
    split_ifs <;> simp [sumDist]

theorem sumDist_categorize (rs : List SLAResult) :
    sumDist (categorizeResponseTimes rs) = rs.length := by
  induction rs with
  | nil => rfl
  | cons r rs ih =>
      rw [categorize_cons, sumDist_merge, sumDist_bucketResult_zero, ih]
      simp [Nat.add_comm]

/-- C9 (amended): the histogram keys each outcome by `businessMinutes`
when present, *falling back to `responseMinutes` when it is absent*
(`effectiveMinutes`); an outcome lands in the no-response bucket only
when both are absent, and every outcome lands in exactly one bucket
(the six bucket counts sum to the collection's size). -/
theorem c9_histogram_buckets (rs : List SLAResult) :
    categorizeResponseTimes rs =
      ⟨rs.countP bucketUnder1h, rs.countP bucket1hTo2h, rs.countP bucket2hTo4h,
       rs.countP bucket4hTo8h, rs.countP bucketOver8h, rs.countP bucketNoResponse⟩ ∧
    sumDist (categorizeResponseTimes rs) = rs.length :=
  ⟨categorize_counts rs, sumDist_categorize rs⟩

/-- C8 (amended): the count-valued components of the aggregation are
associative and commutative — the met/breached/pending counts and the
response-time histogram add under concatenation of outcome lists and
are invariant under permutation (so partition-and-merge agrees with
aggregating the whole set for them) — but, per the counterexample, the
order of the per-actor table still depends on the input order. -/
theorem c8_counts_additive_commutative (l1 l2 l3 : List SLAResult) (hp : l1.Perm l3) :
    metCountOf (l1 ++ l2) = metCountOf l1 + metCountOf l2 ∧
    breachedCountOf (l1 ++ l2) = breachedCountOf l1 + breachedCountOf l2 ∧
    pendingCountOf (l1 ++ l2) = pendingCountOf l1 + pendingCountOf l2 ∧
    categorizeResponseTimes (l1 ++ l2) =
      mergeDistributions (categorizeResponseTimes l1) (categorizeResponseTimes l2) ∧
    metCountOf l1 = metCountOf l3 ∧
    breachedCountOf l1 = breachedCountOf l3 ∧
    pendingCountOf l1 = pendingCountOf l3 ∧
    categorizeResponseTimes l1 = categorizeResponseTimes l3 := by
  refine ⟨?_, ?_, ?_, categorize_append l1 l2, ?_, ?_, ?_, ?_⟩
  · simp [metCountOf, List.filter_append]
  · simp [breachedCountOf, List.filter_append]
  · simp [pendingCountOf, List.filter_append]
  · exact (hp.filter metPred).length_eq
  · exact (hp.filter breachedPred).length_eq
  · exact (hp.filter pendingPred).length_eq
  · rw [categorize_counts l1, categorize_counts l3]
    simp [hp.countP_eq]

theorem c8_counts_additive_commutative_witness :
    metCountOf ([rNoBusinessMinutes] ++ []) =
      metCountOf [rNoBusinessMinutes] + metCountOf [] ∧
    categorizeResponseTimes [rNoBusinessMinutes] =
      categorizeResponseTimes [rNoBusinessMinutes] :=
  ⟨(c8_counts_additive_commutative [rNoBusinessMinutes] [] [rNoBusinessMinutes]
      (List.Perm.refl _)).1,
   (c8_counts_additive_commutative [rNoBusinessMinutes] [] [rNoBusinessMinutes]
      (List.Perm.refl _)).2.2.2.2.2.2.2⟩

/-- C1 (amended): an on-call responder action after the matched shift's
end yields status `responded-after-shift` with `met = false`
unconditionally, and likewise a missing responder action evaluated
after shift end yields status `pending` with `shiftEnded = true` and
`met = false`; in both cases `businessMinutes` is bounded at the shift
end but is the *raw wall-clock* minute span
`(shiftEnd − accountabilityStart) / 60000`, not the BusinessCalendar
value over that interval. -/
theorem c1_after_shift_forced_breach (now : Nat) (t : Ticket) (w : String) (se : Nat)
    (g : ℚ) (hw : t.whoWasOnCall = some w) (hbr : startsWithBracket w = false)
    (hmgr : ON_CALL_MANAGERS.contains ((emailToName.lookup w).getD w) = true)
    (hse : t.onCallShiftEnd = some se) :
    (∀ rm, t.timeToFirstOnCallActionMinutes = some rm →
        se < t.firstOnCallActionTime →
        evaluateTicketOnCall now t g = some
          { ticket := t.key, manager := (emailToName.lookup w).getD w, role := .onCall,
            met := false, responseMinutes := some rm,
            businessMinutes := some
              (((se : ℚ) - (accountabilityStart t.created t.onCallShiftStart : ℚ)) /
                (1000 * 60)),
            actualMinutes := rm, goalMinutes := g,
            createdOutsideHours := isOutsideBusinessHours t.created none,
            status := .respondedAfterShift, shiftEnded := none }) ∧
    (t.timeToFirstOnCallActionMinutes = none → se < now →
        evaluateTicketOnCall now t g = some
          { ticket := t.key, manager := (emailToName.lookup w).getD w, role := .onCall,
            met := false, responseMinutes := none,
            businessMinutes := some
              (((se : ℚ) - (accountabilityStart t.created t.onCallShiftStart : ℚ)) /
                (1000 * 60)),
            actualMinutes := ((now : ℚ) - (t.created : ℚ)) / (1000 * 60),
            goalMinutes := g,
            createdOutsideHours := isOutsideBusinessHours t.created none,
            status := .pending, shiftEnded := some true }) := by
  have hmem : (emailToName.lookup w).getD w ∈ ON_CALL_MANAGERS := by
    simpa using hmgr
  constructor
  · intro rm hrm hafter
    simp [evaluateTicketOnCall, hw, hbr, hmem, hrm, hse, hafter]
  · intro hrm hnow
    simp [evaluateTicketOnCall, hw, hbr, hmem, hrm, hse, hnow]

theorem c1_after_shift_forced_breach_witness :
    evaluateTicketOnCall 0 tkAfterShift 240 = some
      { ticket := tkAfterShift.key, manager := "Brad Goldberg", role := .onCall,
        met := false, responseMinutes := some 240,
        businessMinutes := some
          (((sat0000 : ℚ) -
              (accountabilityStart tkAfterShift.created tkAfterShift.onCallShiftStart : ℚ)) /
            (1000 * 60)),
        actualMinutes := 240, goalMinutes := 240,
        createdOutsideHours := isOutsideBusinessHours tkAfterShift.created none,
        status := .respondedAfterShift, shiftEnded := none } ∧
    evaluateTicketOnCall sat0100 tkPendingEnded 240 = some
      { ticket := tkPendingEnded.key, manager := "Brad Goldberg", role := .onCall,
        met := false, responseMinutes := none,
        businessMinutes := some
          (((sat0000 : ℚ) -
              (accountabilityStart tkPendingEnded.created tkPendingEnded.onCallShiftStart : ℚ)) /
            (1000 * 60)),
        actualMinutes := ((sat0100 : ℚ) - (tkPendingEnded.created : ℚ)) / (1000 * 60),
        goalMinutes := 240,
        createdOutsideHours := isOutsideBusinessHours tkPendingEnded.created none,
        status := .pending, shiftEnded := some true } :=
  ⟨(c1_after_shift_forced_breach 0 tkAfterShift "bgoldberg" sat0000 240 rfl (by decide)
      (by decide) rfl).1 240 rfl (by decide),
   (c1_after_shift_forced_breach sat0100 tkPendingEnded "bgoldberg" sat0000 240 rfl
      (by decide) (by decide) rfl).2 rfl (by decide)⟩

/-- C6 (amended): `findShiftAtTime` first tests the schedule start date
— an instant before 2025-10-31 gets the before-schedule-start sentinel
even when a shift covers it — and only then scans the timeline,
returning the first shift whose inclusive `[start, end]` interval
contains the instant; for an uncovered instant at or after the start
date it returns the sentinels in priority order weekend (Saturday or
Sunday), then after-hours (outside 07:00–23:00 UTC), then no-coverage. -/
theorem c6_findShiftAtTime_cases (shifts : List Shift) (t : Nat) :
    (t < scheduleStartDate → findShiftAtTime shifts t = .beforeOct31) ∧
    (scheduleStartDate ≤ t → ∀ s,
        shifts.find? (fun s => decide (s.shiftStart ≤ t) && decide (t ≤ s.shiftEnd)) = some s →
        findShiftAtTime shifts t = .found s ∧ s.shiftStart ≤ t ∧ t ≤ s.shiftEnd) ∧
    (scheduleStartDate ≤ t →
        (∀ s ∈ shifts, ¬(s.shiftStart ≤ t ∧ t ≤ s.shiftEnd)) →
        findShiftAtTime shifts t =
          (if weekday t = 0 ∨ weekday t = 6 then .weekend
           else if 23 ≤ hourOf t ∨ hourOf t < 7 then .afterHours
           else .noCoverage)) := by
  refine ⟨fun h => ?_, fun h s hs => ?_, fun h hnone => ?_⟩
  · simp [findShiftAtTime, h]
  · have hp := List.find?_some hs
    simp only [Bool.and_eq_true, decide_eq_true_eq] at hp
    refine ⟨?_, hp.1, hp.2⟩
    simp [findShiftAtTime, Nat.not_lt.2 h, hs]
  · have hnone' : shifts.find?
        (fun s => decide (s.shiftStart ≤ t) && decide (t ≤ s.shiftEnd)) = none := by
      rw [List.find?_eq_none]
      intro s hs
      simp only [Bool.and_eq_true, decide_eq_true_eq]
      exact fun hc => hnone s hs hc
    simp [findShiftAtTime, Nat.not_lt.2 h, hnone']

theorem c6_findShiftAtTime_cases_witness :
    findShiftAtTime [] 0 = .beforeOct31 ∧
    findShiftAtTime [⟨"bgoldberg", scheduleStartDate, scheduleStartDate + 100⟩]
      scheduleStartDate = .found ⟨"bgoldberg", scheduleStartDate, scheduleStartDate + 100⟩ ∧
    findShiftAtTime [] scheduleStartDate = .afterHours :=
  ⟨(c6_findShiftAtTime_cases [] 0).1 (by decide),
   ((c6_findShiftAtTime_cases [⟨"bgoldberg", scheduleStartDate, scheduleStartDate + 100⟩]
      scheduleStartDate).2.1 (by decide) _ (by decide)).1,
   by
    have := (c6_findShiftAtTime_cases [] scheduleStartDate).2.2 (by decide)
      (by intro s hs; simp at hs)
    simpa using this⟩

/-- Every manager's UTC window normalizes to the default 13–22 window
(all configured offsets are −5, and unknown names get the default). -/
theorem getPersonBusinessHours_eq (name : String) :
    getPersonBusinessHours name = (13, 22) := by
  unfold getPersonBusinessHours
  rcases h : MANAGER_TIMEZONES.lookup name with _ | off
  · rfl
  · have hoff : off = -5 := by
      simp only [MANAGER_TIMEZONES, List.lookup] at h
      repeat' split at h
      all_goals first
        | exact Option.noConfusion h
        | (injection h with h; omega)
    subst hoff
    decide

theorem businessHoursFor_eq (p : Option String) : businessHoursFor p = (13, 22) := by
  cases p with
  | none => rfl
  | some name => exact getPersonBusinessHours_eq name

theorem lt_nextDayAt (h t : Nat) : t < nextDayAt h t := by
  unfold nextDayAt dayIndex msPerDay msPerHour
  omega

theorem lt_sameDayAt_of_hourOf_lt {h t : Nat} (hh : hourOf t < h) : t < sameDayAt h t := by
  unfold hourOf msPerDay msPerHour at hh
  unfold sameDayAt dayIndex msPerDay msPerHour
  omega

theorem hourOf_lt_of_lt_sameDayAt {c x : Nat} (hcx : c ≤ x) (hx : x < sameDayAt 22 c) :
    hourOf x < 22 := by
  unfold sameDayAt dayIndex msPerDay msPerHour at hx
  unfold hourOf msPerDay msPerHour
  omega

theorem bmLoop_eq_zero (hs he f c e : Nat) (h : ¬ c < e) : bmLoop hs he f c e = 0 := by
  cases f <;> simp [bmLoop, h]

theorem bmLoop_nonneg (f c e : Nat) : 0 ≤ bmLoop 13 22 f c e := by
  induction f generalizing c e with
  | zero => simp [bmLoop]
  | succ f ih =>
      simp only [bmLoop]
      split
      case isFalse => exact le_refl 0
      case isTrue hlt =>
        split
        case isTrue => exact ih _ _
        case isFalse hw =>
          split
          case isTrue => exact ih _ _
          case isFalse hh1 =>
            split
            case isTrue => exact ih _ _
            case isFalse hh2 =>
              have hcd : c < sameDayAt 22 c := lt_sameDayAt_of_hourOf_lt (by omega)
              refine add_nonneg ?_ (ih _ _)
              have hcs : c ≤ (if e < sameDayAt 22 c then e else sameDayAt 22 c) := by
                split <;> omega
              omega

/-- The fuelled loop is fuel-independent once the fuel exceeds the
remaining millisecond span (each iteration advances `c` by ≥ 1 ms). -/
theorem bmLoop_fuel_irrelevant (n : Nat) :
    ∀ c e f f', e - c = n → n < f → n < f' →
      bmLoop 13 22 f c e = bmLoop 13 22 f' c e := by
  induction n using Nat.strong_induction_on with
  | _ n ih =>
    intro c e f f' hn hf hf'
    rcases f with _ | f
    · omega
    rcases f' with _ | f'
    · omega
    by_cases hce : c < e
    case neg =>
      rw [bmLoop_eq_zero _ _ _ _ _ hce, bmLoop_eq_zero _ _ _ _ _ hce]
    case pos =>
      simp only [bmLoop, if_pos hce]
      by_cases hw : isWeekend c = true
      · simp only [if_pos hw]
        exact ih (e - nextDayAt 13 c)
          (by have := lt_nextDayAt 13 c; omega) _ _ _ _ rfl
          (by have := lt_nextDayAt 13 c; omega)
          (by have := lt_nextDayAt 13 c; omega)
      · simp only [if_neg hw]
        by_cases hh1 : hourOf c < 13
        · simp only [if_pos hh1]
          have hlt := lt_sameDayAt_of_hourOf_lt hh1
          exact ih (e - sameDayAt 13 c) (by omega) _ _ _ _ rfl (by omega) (by omega)
        · simp only [if_neg hh1]
          by_cases hh2 : 22 ≤ hourOf c
          · simp only [if_pos hh2]
            have hlt := lt_nextDayAt 13 c
            exact ih (e - nextDayAt 13 c) (by omega) _ _ _ _ rfl (by omega) (by omega)
          · simp only [if_neg hh2]
            have hcd : c < sameDayAt 22 c := lt_sameDayAt_of_hourOf_lt (by omega)
            by_cases hseg : e < sameDayAt 22 c
            · simp only [if_pos hseg]
              have hcc' : c < (if 22 ≤ hourOf e then nextDayAt 13 e else e) := by
                split
                · exact lt_trans hce (lt_nextDayAt _ _)
                · exact hce
              congr 1
              exact ih (e - _) (by omega) _ _ _ _ rfl (by omega) (by omega)
            · simp only [if_neg hseg]
              have hcc' : c < (if 22 ≤ hourOf (sameDayAt 22 c)
                  then nextDayAt 13 (sameDayAt 22 c) else sameDayAt 22 c) := by
                split
                · exact lt_trans hcd (lt_nextDayAt _ _)
                · exact hcd
              congr 1
              exact ih (e - _) (by omega) _ _ _ _ rfl (by omega) (by omega)

/-- The fuelled loop is monotone in the end instant (fuel fixed and
sufficient for the larger end). -/
theorem bmLoop_mono (n : Nat) :
    ∀ c e1 e2 f, e1 ≤ e2 → e2 - c = n → n < f →
      bmLoop 13 22 f c e1 ≤ bmLoop 13 22 f c e2 := by
  induction n using Nat.strong_induction_on with
  | _ n ih =>
    intro c e1 e2 f h12 hn hf
    rcases f with _ | f
    · omega
    by_cases hce2 : c < e2
    case neg =>
      have hce1 : ¬ c < e1 := by omega
      rw [bmLoop_eq_zero _ _ _ _ _ hce1, bmLoop_eq_zero _ _ _ _ _ hce2]
    case pos =>
      by_cases hce1 : c < e1
      case neg =>
        rw [bmLoop_eq_zero _ _ _ _ _ hce1]
        exact bmLoop_nonneg _ _ _
      case pos =>
        simp only [bmLoop, if_pos hce1, if_pos hce2]
        by_cases hw : isWeekend c = true
        · simp only [if_pos hw]
          exact ih (e2 - nextDayAt 13 c) (by have := lt_nextDayAt 13 c; omega) _ _ _ _
            h12 rfl (by have := lt_nextDayAt 13 c; omega)
        · simp only [if_neg hw]
          by_cases hh1 : hourOf c < 13
          · simp only [if_pos hh1]
            have hlt := lt_sameDayAt_of_hourOf_lt hh1
            exact ih (e2 - sameDayAt 13 c) (by omega) _ _ _ _ h12 rfl (by omega)
          · simp only [if_neg hh1]
            by_cases hh2 : 22 ≤ hourOf c
            · simp only [if_pos hh2]
              have hlt := lt_nextDayAt 13 c
              exact ih (e2 - nextDayAt 13 c) (by omega) _ _ _ _ h12 rfl (by omega)
            · simp only [if_neg hh2]
              have hcd : c < sameDayAt 22 c := lt_sameDayAt_of_hourOf_lt (by omega)
              by_cases hd1 : e1 < sameDayAt 22 c
              · -- the first segment ends at e1 itself
                have hhe1 : hourOf e1 < 22 :=
                  hourOf_lt_of_lt_sameDayAt (le_of_lt hce1) hd1
                rw [if_pos hd1, if_neg (by omega : ¬ 22 ≤ hourOf e1),
                  bmLoop_eq_zero _ _ f e1 e1 (lt_irrefl e1)]
                by_cases hd2 : e2 < sameDayAt 22 c
                · have hhe2 : hourOf e2 < 22 :=
                    hourOf_lt_of_lt_sameDayAt (by omega) hd2
                  rw [if_pos hd2, if_neg (by omega : ¬ 22 ≤ hourOf e2),
                    bmLoop_eq_zero _ _ f e2 e2 (lt_irrefl e2)]
                  omega
                · rw [if_neg hd2]
                  have hnn := bmLoop_nonneg f
                    (if 22 ≤ hourOf (sameDayAt 22 c) then nextDayAt 13 (sameDayAt 22 c)
                     else sameDayAt 22 c) e2
                  omega
              · -- both segments end at the day window's end
                have hd2 : ¬ e2 < sameDayAt 22 c := by omega
                rw [if_neg hd1, if_neg hd2]
                have hcc' : c < (if 22 ≤ hourOf (sameDayAt 22 c)
                    then nextDayAt 13 (sameDayAt 22 c) else sameDayAt 22 c) := by
                  split
                  · exact lt_trans hcd (lt_nextDayAt _ _)
                  · exact hcd
                have hrec := ih (e2 - (if 22 ≤ hourOf (sameDayAt 22 c)
                    then nextDayAt 13 (sameDayAt 22 c) else sameDayAt 22 c))
                  (by omega) _ _ _ f h12 rfl (by omega)
                omega

/-- C3: for every start instant, every optional actor name and every
pair of end instants `e1 ≤ e2`, `calculateBusinessMinutes` is
non-negative and non-decreasing in the end instant with the start
fixed. -/
theorem c3_business_minutes_monotone (start e1 e2 : Nat) (p : Option String)
    (h : e1 ≤ e2) :
    0 ≤ calculateBusinessMinutes start e1 p ∧
    calculateBusinessMinutes start e1 p ≤ calculateBusinessMinutes start e2 p := by
  have hbh := businessHoursFor_eq p
  unfold calculateBusinessMinutes
  rw [hbh]
  dsimp only
  by_cases h1 : e1 < (if (isWeekend start || !isBusinessHours start p) = true then
      getNextBusinessHour start p else start)
  · rw [if_pos h1]
    refine ⟨le_refl 0, ?_⟩
    by_cases h2 : e2 < (if (isWeekend start || !isBusinessHours start p) = true then
        getNextBusinessHour start p else start)
    · rw [if_pos h2]
    · rw [if_neg h2]
      have hnn := bmLoop_nonneg
        (e2 - (if (isWeekend start || !isBusinessHours start p) = true then
          getNextBusinessHour start p else start) + 1)
        (if (isWeekend start || !isBusinessHours start p) = true then
          getNextBusinessHour start p else start) e2
      unfold jsRoundMinutes
      omega
  · rw [if_neg h1]
    have h2 : ¬ e2 < (if (isWeekend start || !isBusinessHours start p) = true then
        getNextBusinessHour start p else start) := by omega
    rw [if_neg h2]
    have hnn := bmLoop_nonneg
      (e1 - (if (isWeekend start || !isBusinessHours start p) = true then
        getNextBusinessHour start p else start) + 1)
      (if (isWeekend start || !isBusinessHours start p) = true then
        getNextBusinessHour start p else start) e1
    have heq := bmLoop_fuel_irrelevant
      (e1 - (if (isWeekend start || !isBusinessHours start p) = true then
        getNextBusinessHour start p else start))
      (if (isWeekend start || !isBusinessHours start p) = true then
        getNextBusinessHour start p else start) e1
      (e1 - (if (isWeekend start || !isBusinessHours start p) = true then
        getNextBusinessHour start p else start) + 1)
      (e2 - (if (isWeekend start || !isBusinessHours start p) = true then
        getNextBusinessHour start p else start) + 1)
      rfl (by omega) (by omega)
    have hmono := bmLoop_mono
      (e2 - (if (isWeekend start || !isBusinessHours start p) = true then
        getNextBusinessHour start p else start))
      (if (isWeekend start || !isBusinessHours start p) = true then
        getNextBusinessHour start p else start) e1 e2
      (e2 - (if (isWeekend start || !isBusinessHours start p) = true then
        getNextBusinessHour start p else start) + 1)
      h rfl (by omega)
    unfold jsRoundMinutes
    rw [heq]
    omega

theorem c3_business_minutes_monotone_witness :
    0 ≤ calculateBusinessMinutes mon2130 tue1400 none ∧
    calculateBusinessMinutes mon2130 tue1400 none ≤
      calculateBusinessMinutes mon2130 (tue1400 + msPerHour) none :=
  c3_business_minutes_monotone mon2130 tue1400 (tue1400 + msPerHour) none (by decide)
